import Mathlib

/-
Shallow embedding of src/ui.rs from the ledger-nanos-ui repository.

The source is an event-driven UI library for a two-button device.  Pure
logic (the button classifier, cursor arithmetic, page arithmetic, the
draw-parameter computations) is translated directly.  The event loops are
modelled as step functions on their integer cursor state, driven by lists
of incoming events; the transport behind get_event is modelled as the list
of command buffers the receive loop would deliver while a status is
outstanding (the tag byte and byte index 3 are the only bytes the code
inspects).  Drawing calls are side effects on the physical display and are
modelled through the data that determines them: slice bounds, arrow flags,
and the panel indices that are read.
-/

/-- Event enum from ui.rs: the six semantic button events. -/
inductive Event where
  | LeftButtonPress
  | RightButtonPress
  | BothButtonsPress
  | LeftButtonRelease
  | RightButtonRelease
  | BothButtonsRelease
deriving DecidableEq

/-- Classifier get_button_event from ui.rs.  The Rust function mutates
buttons.button_mask and returns an optional event; here it returns the
pair (updated button_mask, event).  The mask is first or-ed with the new
bits, then the match arms run in source order; the release arm overwrites
the mask with 0. -/
def get_button_event (button_mask : Nat) (new : Nat) : Nat × Option Event :=
  let old := button_mask
  let merged := old ||| new
  match old, new with
  | 0, 1 => (merged, some Event.LeftButtonPress)
  | 0, 2 => (merged, some Event.RightButtonPress)
  | _, 3 => (merged, some Event.BothButtonsPress)
  | b, 0 =>
    (0, match b with
        | 1 => some Event.LeftButtonRelease
        | 2 => some Event.RightButtonRelease
        | 3 => some Event.BothButtonsRelease
        | _ => none)
  | _, _ => (merged, none)

/-- Mask evolution under repeated new = 3 reports, starting from a held
mask of 3 (models repeated both-press reports while both buttons are
held). -/
def button_mask_after_presses : Nat → Nat
  | 0 => 3
  | k + 1 => (get_button_event (button_mask_after_presses k) 3).1

/-- Shift performed by get_event on byte index 3 of the command buffer
before calling the classifier: button_info = cmd_buffer[3] >> 1. -/
def button_info (byte3 : Nat) : Nat := byte3 >>> 1

/-- Receive loop of get_event from ui.rs.  The transport is modelled as
the list of (tag, byte3) command buffers delivered while a status is
outstanding.  On the first buffer whose tag is 0x05 the function returns
the classifier result (paired with the updated mask); when the status is
no longer outstanding (list exhausted) it returns none. -/
def get_event (button_mask : Nat) : List (Nat × Nat) → Nat × Option Event
  | [] => (button_mask, none)
  | (tag, byte3) :: rest =>
    if tag = 5 then get_button_event button_mask (button_info byte3)
    else get_event button_mask rest

/-- Result of one iteration of the MessageValidator::ask loop: either the
loop continues with a page cursor, or ask returns a boolean. -/
inductive MVStep where
  | cont (page : Nat)
  | done (b : Bool)
deriving DecidableEq

/-- Page count of MessageValidator::ask: message.len() + 2. -/
def mv_page_count (len : Nat) : Nat := len + 2

/-- One loop iteration of MessageValidator::ask on a classified event;
len is message.len().  Drawing is omitted: it does not affect the cursor
or the returned boolean. -/
def message_validator_step (len page : Nat) : Event → MVStep
  | Event.LeftButtonRelease =>
    if 0 < page then MVStep.cont (page - 1) else MVStep.cont page
  | Event.RightButtonRelease =>
    if page < mv_page_count len - 1 then MVStep.cont (page + 1)
    else MVStep.cont page
  | Event.BothButtonsRelease =>
    if page = mv_page_count len - 2 then MVStep.done true
    else if page = mv_page_count len - 1 then MVStep.done false
    else MVStep.cont page
  | _ => MVStep.cont page

/-- Cursor update of one iteration of Menu::show.  LeftButtonRelease is
index.saturating_sub(1), which on Nat is truncated subtraction; the
terminal BothButtonsRelease arm returns the index unchanged and all other
arms only paint. -/
def menu_step (len index : Nat) : Event → Nat
  | Event.LeftButtonRelease => index - 1
  | Event.RightButtonRelease => if index < len - 1 then index + 1 else index
  | _ => index

/-- Menu cursor after a list of events, starting from a given index. -/
def menu_run (len index : Nat) : List Event → Nat
  | [] => index
  | e :: es => menu_run len (menu_step len index e) es

/-- Panel indices read unchecked at entry to Menu::show, in access order:
panels[1] (bottom label) then panels[0] (top label). -/
def menu_entry_accesses : List Nat := [1, 0]

/-- Top panel index read unchecked on every Menu redraw:
a = (index / 2) * 2; the neighbor a + 1 is read through the checked get. -/
def menu_redraw_access (index : Nat) : Nat := (index / 2) * 2

/-- Loop body of SingleMessage::show_and_wait on the optional event it
receives from get_event: true means the function returns. -/
def single_message_body : Option Event → Bool
  | some Event.LeftButtonRelease => true
  | some Event.RightButtonRelease => true
  | some Event.BothButtonsRelease => true
  | _ => false

/-- CHAR_N constant of MessageScroller::event_loop. -/
def CHAR_N : Nat := 16

/-- Modulus of usize arithmetic; the target device (Ledger Nano S,
32-bit ARM) has a 32-bit usize, so this is 2 ^ 32. -/
def USIZE : Nat := 4294967296

/-- Page count computed by MessageScroller::event_loop:
(message.len() - 1) / CHAR_N + 1.  The subtraction is usize arithmetic:
on an empty message len - 1 wraps to USIZE - 1 (with overflow checks
enabled it would instead abort; either way the len = 0 case never reaches
the page_count == 0 early return with value 0). -/
def scroller_page_count (len : Nat) : Nat :=
  ((len + USIZE - 1) % USIZE) / CHAR_N + 1

/-- Early-return guard of MessageScroller::event_loop: page_count == 0. -/
def scroller_early_return (len : Nat) : Bool := scroller_page_count len == 0

/-- Output of the draw closure in MessageScroller::event_loop: the text
chunk that is displayed and whether the left / right arrows are painted. -/
structure ScrollerDraw where
  chunk : List Char
  left_arrow : Bool
  right_arrow : Bool
deriving DecidableEq

/-- Draw closure of MessageScroller::event_loop: start = page * CHAR_N,
stop = min (start + CHAR_N) len, chunk = message[start..stop], left arrow
painted iff page > 0, right arrow painted iff page + 1 < page_count. -/
def scroller_draw (message : List Char) (page_count page : Nat) : ScrollerDraw :=
  let start := page * CHAR_N
  let stop := min (start + CHAR_N) message.length
  { chunk := (message.drop start).take (stop - start),
    left_arrow := decide (0 < page),
    right_arrow := decide (page + 1 < page_count) }

/-- Cursor update of one iteration of HScroller::event_loop; the release
arms clamp at 0 and at screens.len() - 1, all other arms leave the cursor
unchanged. -/
def hscroller_step (len cur_idx : Nat) : Event → Nat
  | Event.LeftButtonRelease => if 0 < cur_idx then cur_idx - 1 else cur_idx
  | Event.RightButtonRelease => if cur_idx < len - 1 then cur_idx + 1 else cur_idx
  | _ => cur_idx

/-- HScroller cursor after a list of events. -/
def hscroller_run (len cur_idx : Nat) : List Event → Nat
  | [] => cur_idx
  | e :: es => hscroller_run len (hscroller_step len cur_idx e) es

/-- Loop body of HScroller::event_loop on the optional event it receives:
none means the loop breaks, some gives the next cursor.  Arms mirror the
source match: the press arms only paint, the release arms clamp, the
catch-all (including receiving no event) does nothing. -/
def hscroller_body (len cur_idx : Nat) : Option Event → Option Nat
  | some Event.LeftButtonPress => some cur_idx
  | some Event.RightButtonPress => some cur_idx
  | some Event.LeftButtonRelease =>
    some (if 0 < cur_idx then cur_idx - 1 else cur_idx)
  | some Event.RightButtonRelease =>
    some (if cur_idx < len - 1 then cur_idx + 1 else cur_idx)
  | some Event.BothButtonsPress => some cur_idx
  | some Event.BothButtonsRelease => none
  | none => some cur_idx

/-- Screens index read unchecked before the HScroller loop starts. -/
def hscroller_initial_access : Nat := 0

/-- Helper: one Menu step keeps the cursor at or below len - 1. -/
theorem menu_step_le (len index : Nat) (e : Event) (h : index ≤ len - 1) :
    menu_step len index e ≤ len - 1 := by
  cases e <;> simp only [menu_step] <;> first | omega | (split <;> omega)

/-- Helper: any event list keeps the Menu cursor at or below len - 1. -/
theorem menu_run_le (len : Nat) (es : List Event) :
    ∀ index, index ≤ len - 1 → menu_run len index es ≤ len - 1 := by
  induction es with
  | nil => intro index h; simpa [menu_run] using h
  | cons e es ih =>
    intro index h
    simp only [menu_run]
    exact ih _ (menu_step_le len index e h)

/-- Helper: HScroller and Menu perform the same cursor update. -/
theorem hscroller_step_eq_menu_step (len idx : Nat) (e : Event) :
    hscroller_step len idx e = menu_step len idx e := by
  cases e <;> simp only [hscroller_step, menu_step] <;>
    first | rfl | (split <;> omega)

/-- Helper: any event list keeps the HScroller cursor at or below len - 1. -/
theorem hscroller_run_le (len : Nat) (es : List Event) :
    ∀ idx, idx ≤ len - 1 → hscroller_run len idx es ≤ len - 1 := by
  induction es with
  | nil => intro idx h; simpa [hscroller_run] using h
  | cons e es ih =>
    intro idx h
    simp only [hscroller_run]
    refine ih _ ?_
    rw [hscroller_step_eq_menu_step]
    exact menu_step_le len idx e h

/-- Helper: the mask stays 3 under repeated new = 3 reports. -/
theorem button_mask_after_presses_eq (k : Nat) :
    button_mask_after_presses k = 3 := by
  induction k with
  | zero => rfl
  | succ k ih => simp only [button_mask_after_presses, ih]; decide

/-- Claim C1: the button classifier maps (0,1) to LeftButtonPress, (0,2) to
RightButtonPress, any pair with new = 3 to BothButtonsPress, and (1,0),
(2,0), (3,0) to the matching release events, produces no event for every
other pair; any call with new = 0 resets the held mask to 0; and repeated
calls with new = 3 while the mask is already 3 yield BothButtonsPress on
every call. -/
theorem c1_button_classifier :
    get_button_event 0 1 = (1, some Event.LeftButtonPress)
    ∧ get_button_event 0 2 = (2, some Event.RightButtonPress)
    ∧ (∀ old, old < 4 → get_button_event old 3 = (3, some Event.BothButtonsPress))
    ∧ get_button_event 1 0 = (0, some Event.LeftButtonRelease)
    ∧ get_button_event 2 0 = (0, some Event.RightButtonRelease)
    ∧ get_button_event 3 0 = (0, some Event.BothButtonsRelease)
    ∧ (∀ old, old < 4 → ∀ new, new < 4 → new ≠ 3 →
        (old, new) ∉ ([(0, 1), (0, 2), (1, 0), (2, 0), (3, 0)] : List (Nat × Nat)) →
        (get_button_event old new).2 = none)
    ∧ (∀ old, old < 4 → (get_button_event old 0).1 = 0)
    ∧ (∀ k, (get_button_event (button_mask_after_presses k) 3).2
        = some Event.BothButtonsPress) := by
  refine ⟨by decide, by decide, by decide, by decide, by decide, by decide,
    ?_, by decide, ?_⟩
  · intro old h1 new h2 h3 h4
    interval_cases old <;> interval_cases new <;>
      first
        | decide
        | exact absurd rfl h3
        | exact absurd (by decide) h4
  · intro k
    rw [button_mask_after_presses_eq]
    decide

/-- Concrete instantiation of c1_button_classifier: a both-press report
while only the right button was held still classifies as BothButtonsPress. -/
theorem c1_button_classifier_witness :
    (2 : Nat) < 4 ∧ get_button_event 2 3 = (3, some Event.BothButtonsPress) :=
  ⟨by decide, (c1_button_classifier.2.2.1) 2 (by decide)⟩

/-- Claim C2 (code divergence): MessageScroller::event_loop computes
page_count = (len - 1) / 16 + 1.  For a nonempty message this equals
ceil(len / 16), but for the empty message the usize subtraction wraps: the
page count is 268435456 rather than 0, and in fact the page_count == 0
early return is never taken for any length, so an empty message does not
return immediately as the specification claims. -/
theorem c2_scroller_page_count :
    scroller_page_count 0 = 268435456
    ∧ scroller_page_count 0 ≠ 0
    ∧ scroller_early_return 0 = false
    ∧ (∀ len, 1 ≤ len → len < USIZE →
        scroller_page_count len = (len + CHAR_N - 1) / CHAR_N)
    ∧ (∀ len, scroller_early_return len = false) := by
  refine ⟨by decide, by decide, by decide, ?_, ?_⟩
  · intro len h1 h2
    simp only [USIZE] at h2
    simp only [scroller_page_count, USIZE, CHAR_N]
    have hw : (len + 4294967296 - 1) % 4294967296 = len - 1 := by
      have he : len + 4294967296 - 1 = (len - 1) + 4294967296 := by omega
      rw [he, Nat.add_mod_right, Nat.mod_eq_of_lt (by omega)]
    rw [hw, ← Nat.add_div_right (len - 1) (by norm_num : (0 : Nat) < 16)]
    have hc : len - 1 + 16 = len + 16 - 1 := by omega
    rw [hc]
  · intro len
    simp [scroller_early_return, scroller_page_count]

/-- Concrete instantiation of c2_scroller_page_count: a 33-character
message has 3 pages. -/
theorem c2_scroller_page_count_witness :
    1 ≤ 33 ∧ scroller_page_count 33 = 3 :=
  ⟨by decide,
    ((c2_scroller_page_count.2.2.2.1) 33 (by decide) (by decide)).trans (by decide)⟩

/-- Claim C3 counterexample: the loop body of SingleMessage::show_and_wait
returns on LeftButtonRelease, so a release other than BothButtonsRelease
does terminate SingleMessage's loop, contrary to the claim. -/
theorem c3_counterexample :
    single_message_body (some Event.LeftButtonRelease) = true := by decide

/-- Claim C3 amended: SingleMessage::show_and_wait terminates on any of the
three release events (and only those), while HScroller::event_loop
terminates only on BothButtonsRelease; HScroller clamps its cursor exactly
as Menu does, and in the lone-item case (screens.len() = 1) every event
other than BothButtonsRelease leaves the cursor at 0. -/
theorem c3_termination_and_clamp :
    (∀ oe, single_message_body oe = true ↔
      (oe = some Event.LeftButtonRelease ∨ oe = some Event.RightButtonRelease
        ∨ oe = some Event.BothButtonsRelease))
    ∧ (∀ len idx oe, hscroller_body len idx oe = none
        ↔ oe = some Event.BothButtonsRelease)
    ∧ (∀ len idx e, hscroller_step len idx e = menu_step len idx e)
    ∧ (∀ e, e ≠ Event.BothButtonsRelease → hscroller_body 1 0 (some e) = some 0)
    ∧ hscroller_body 1 0 (some Event.BothButtonsRelease) = none := by
  refine ⟨?_, ?_, ?_, ?_, rfl⟩
  · intro oe
    cases oe with
    | none => decide
    | some e => cases e <;> decide
  · intro len idx oe
    cases oe with
    | none => simp [hscroller_body]
    | some e => cases e <;> simp [hscroller_body]
  · exact hscroller_step_eq_menu_step
  · intro e h
    cases e <;> first | rfl | exact absurd rfl h

/-- Concrete instantiation of c3_termination_and_clamp: in the lone-item
case a left release leaves the cursor at 0 and does not terminate. -/
theorem c3_termination_and_clamp_witness :
    Event.LeftButtonRelease ≠ Event.BothButtonsRelease
    ∧ hscroller_body 1 0 (some Event.LeftButtonRelease) = some 0 :=
  ⟨by decide, (c3_termination_and_clamp.2.2.2.1) Event.LeftButtonRelease (by decide)⟩

/-- Claim C4 counterexample: for a button-tag buffer whose byte 3 is 8, the
value passed to the classifier is 8 >> 1 = 4: it differs from
(8 >> 1) AND 3 = 0, and it exceeds 3. -/
theorem c4_counterexample :
    button_info 8 = 4
    ∧ (8 >>> 1) &&& 3 = 0
    ∧ button_info 8 ≠ (8 >>> 1) &&& 3
    ∧ ¬ button_info 8 ≤ 3 := by decide

/-- Claim C4 amended: for a button-tag (0x05) buffer, get_event passes
byte3 >> 1 to the classifier - bits 1 through 7 of byte 3, not only bits
1 and 2 - so the value equals byte3 / 2, is at most 127 for any byte
value, and coincides with (byte3 >> 1) AND 3 exactly when byte3 < 8. -/
theorem c4_button_info (byte3 : Nat) (h : byte3 < 256) (mask : Nat)
    (rest : List (Nat × Nat)) :
    get_event mask ((5, byte3) :: rest) = get_button_event mask (button_info byte3)
    ∧ button_info byte3 = byte3 / 2
    ∧ button_info byte3 ≤ 127
    ∧ (byte3 < 8 → button_info byte3 = (byte3 >>> 1) &&& 3) := by
  refine ⟨by simp [get_event], ?_, ?_, ?_⟩
  · simp [button_info, Nat.shiftRight_eq_div_pow]
  · simp only [button_info, Nat.shiftRight_eq_div_pow, pow_one]
    omega
  · intro h8
    interval_cases byte3 <;> decide

/-- Concrete instantiation of c4_button_info: byte 200 yields classifier
input 100. -/
theorem c4_button_info_witness :
    (200 : Nat) < 256 ∧ button_info 200 = 100 :=
  ⟨by decide, ((c4_button_info 200 (by decide) 0 []).2.1).trans (by decide)⟩

/-- Claim C5: on a buffer with tag 0x05, get_event returns the classifier
result immediately and unconditionally, terminating the whole receive
loop; in particular a button-tag buffer classified as no event ends the
call with none even when further buffers are still pending, including
buffers that would themselves have produced an event. -/
theorem c5_get_event_returns_immediately (mask byte3 : Nat)
    (rest : List (Nat × Nat)) :
    get_event mask ((5, byte3) :: rest) = get_button_event mask (button_info byte3)
    ∧ (get_event 0 ((5, 0) :: rest)).2 = none
    ∧ (get_event 0 [(5, 0), (5, 4)]).2 = none
    ∧ (get_event 0 [(5, 4)]).2 = some Event.RightButtonPress := by
  refine ⟨by simp [get_event], ?_, by decide, by decide⟩
  have hstep : get_event 0 ((5, 0) :: rest) = get_button_event 0 (button_info 0) := by
    simp [get_event]
  rw [hstep]
  decide

/-- Claim C6: MessageValidator::ask over len message pages has
page_count = len + 2; on BothButtonsRelease the loop returns true exactly
on page len (the confirm page, page_count - 2), returns false exactly on
page len + 1 (the cancel page, page_count - 1), and is a no-op on every
message page below len; with len = 3 the page count is 5, pages 0 to 2 are
no-ops, page 3 confirms and page 4 cancels. -/
theorem c6_message_validator (len page : Nat) :
    mv_page_count len = len + 2
    ∧ (message_validator_step len page Event.BothButtonsRelease = MVStep.done true
        ↔ page = len)
    ∧ (message_validator_step len page Event.BothButtonsRelease = MVStep.done false
        ↔ page = len + 1)
    ∧ (page < len →
        message_validator_step len page Event.BothButtonsRelease = MVStep.cont page)
    ∧ mv_page_count 3 = 5
    ∧ (∀ p, p < 3 →
        message_validator_step 3 p Event.BothButtonsRelease = MVStep.cont p)
    ∧ message_validator_step 3 3 Event.BothButtonsRelease = MVStep.done true
    ∧ message_validator_step 3 4 Event.BothButtonsRelease = MVStep.done false := by
  refine ⟨rfl, ?_, ?_, ?_, rfl, by decide, by decide, by decide⟩
  · simp only [message_validator_step, mv_page_count]
    split_ifs with h1 h2 <;> simp <;> omega
  · simp only [message_validator_step, mv_page_count]
    split_ifs with h1 h2 <;> simp <;> omega
  · intro h
    simp only [message_validator_step, mv_page_count]
    split_ifs with h1 h2
    · exact absurd h1 (by omega)
    · exact absurd h2 (by omega)
    · rfl

/-- Concrete instantiation of c6_message_validator: with three message
pages, BothButtonsRelease on message page 2 is a no-op. -/
theorem c6_message_validator_witness :
    2 < 3 ∧ message_validator_step 3 2 Event.BothButtonsRelease = MVStep.cont 2 :=
  ⟨by decide, ((c6_message_validator 3 2).2.2.2.1) (by decide)⟩

/-- Claim C7: in Menu::show the cursor always stays within
[0, panels.len() - 1]: left release saturates the decrement at 0, right
release saturates the increment at len - 1, and with len = 5 ten
consecutive right releases starting from 0 end at 4, not 9. -/
theorem c7_menu_cursor_bounds (len : Nat) (h : 2 ≤ len) :
    (∀ es, menu_run len 0 es ≤ len - 1)
    ∧ menu_step len 0 Event.LeftButtonRelease = 0
    ∧ menu_step len (len - 1) Event.RightButtonRelease = len - 1
    ∧ (∀ index, index < len - 1 →
        menu_step len index Event.RightButtonRelease = index + 1)
    ∧ menu_run 5 0 (List.replicate 10 Event.RightButtonRelease) = 4 := by
  refine ⟨fun es => menu_run_le len es 0 (Nat.zero_le _), rfl, ?_, ?_, by decide⟩
  · simp [menu_step]
  · intro index hi
    simp [menu_step, if_pos hi]

/-- Concrete instantiation of c7_menu_cursor_bounds: ten right releases on
a five-panel menu end at index 4. -/
theorem c7_menu_cursor_bounds_witness :
    2 ≤ 5 ∧ menu_run 5 0 (List.replicate 10 Event.RightButtonRelease) = 4 :=
  ⟨by decide, (c7_menu_cursor_bounds 5 (by decide)).2.2.2.2⟩

/-- Claim C8: the MessageScroller draw for page p displays exactly the
slice [p*16, min(p*16+16, len)) of the message, paints a left arrow iff
p > 0 and a right arrow iff p + 1 < page_count; for a 33-character message
there are 3 pages, page 2 covers only [32, 33), the right arrow is absent
on page 2 and the left arrow is absent on page 0. -/
theorem c8_scroller_draw_slice (message : List Char) (page_count page : Nat) :
    (scroller_draw message page_count page).chunk
      = (message.take (min (page * 16 + 16) message.length)).drop (page * 16)
    ∧ ((scroller_draw message page_count page).left_arrow = true ↔ 0 < page)
    ∧ ((scroller_draw message page_count page).right_arrow = true
        ↔ page + 1 < page_count)
    ∧ (message.length = 33 →
        scroller_page_count 33 = 3
        ∧ (scroller_draw message (scroller_page_count 33) 2).chunk = message.drop 32
        ∧ (scroller_draw message (scroller_page_count 33) 2).right_arrow = false
        ∧ (scroller_draw message (scroller_page_count 33) 0).left_arrow = false) := by
  refine ⟨?_, ?_, ?_, ?_⟩
  · simp only [scroller_draw, CHAR_N]
    rw [List.drop_take]
  · simp [scroller_draw]
  · simp [scroller_draw]
  · intro hlen
    refine ⟨by decide, ?_, ?_, ?_⟩
    · simp only [scroller_draw, CHAR_N, hlen]
      norm_num
      omega
    · simp only [scroller_draw]
      decide
    · simp only [scroller_draw]
      decide

/-- Concrete instantiation of c8_scroller_draw_slice: on a concrete
33-character message the right arrow is absent on page 2. -/
theorem c8_scroller_draw_slice_witness :
    (List.replicate 33 'a').length = 33
    ∧ (scroller_draw (List.replicate 33 'a') (scroller_page_count 33) 2).right_arrow
        = false :=
  ⟨by simp,
    ((c8_scroller_draw_slice (List.replicate 33 'a') (scroller_page_count 33) 2).2.2.2
      (by simp)).2.2.1⟩

/-- Claim C9: with at least two panels every panel index Menu::show reads
unchecked is in bounds - panels[1] and panels[0] at entry, and the
even-aligned redraw index (cursor / 2) * 2 after any event sequence - and
the neighbor slot is read through the checked get, which is some exactly
when its index is in bounds, so the out-of-bounds abort is unreachable;
with fewer than two panels the entry accesses already contain an
out-of-bounds index, so the initial draw aborts. -/
theorem c9_menu_panel_accesses (len : Nat) (h : 2 ≤ len) :
    (∀ i ∈ menu_entry_accesses, i < len)
    ∧ (∀ es, menu_redraw_access (menu_run len 0 es) < len)
    ∧ (∀ (panels : List (List Char)) (index : Nat),
        (panels[menu_redraw_access index + 1]?).isSome = true
          ↔ menu_redraw_access index + 1 < panels.length)
    ∧ (∀ len2, len2 < 2 → ∃ i ∈ menu_entry_accesses, ¬ i < len2) := by
  refine ⟨?_, ?_, ?_, ?_⟩
  · intro i hi
    simp [menu_entry_accesses] at hi
    omega
  · intro es
    have hm := menu_run_le len es 0 (Nat.zero_le _)
    simp only [menu_redraw_access]
    omega
  · intro panels index
    rw [← not_iff_not]
    simp [List.getElem?_eq_none_iff]
  · intro len2 h2
    exact ⟨1, by simp [menu_entry_accesses], by omega⟩

/-- Concrete instantiation of c9_menu_panel_accesses: with two panels the
redraw index after no events is in bounds. -/
theorem c9_menu_panel_accesses_witness :
    2 ≤ 2 ∧ menu_redraw_access (menu_run 2 0 []) < 2 :=
  ⟨by decide, (c9_menu_panel_accesses 2 (by decide)).2.1 []⟩

/-- Claim C10: HScroller::event_loop reads screens[0] before entering its
loop; with a nonempty screens slice the cursor stays in [0, len - 1] for
every event sequence, so every screens[cursor] read is in bounds, while
with an empty slice the initial screens[0] read is already out of
bounds. -/
theorem c10_hscroller_bounds (len : Nat) (h : 1 ≤ len) :
    hscroller_initial_access < len
    ∧ (∀ es, hscroller_run len 0 es ≤ len - 1)
    ∧ (∀ es, hscroller_run len 0 es < len)
    ∧ (∀ len2, len2 = 0 → ¬ hscroller_initial_access < len2) := by
  refine ⟨?_, fun es => hscroller_run_le len es 0 (Nat.zero_le _), ?_, ?_⟩
  · simp only [hscroller_initial_access]
    omega
  · intro es
    have hb := hscroller_run_le len es 0 (Nat.zero_le _)
    omega
  · intro len2 h2
    simp [hscroller_initial_access, h2]

/-- Concrete instantiation of c10_hscroller_bounds: with a single screen
the cursor stays at 0 after a right release. -/
theorem c10_hscroller_bounds_witness :
    1 ≤ 1 ∧ hscroller_run 1 0 [Event.RightButtonRelease] < 1 :=
  ⟨by decide, (c10_hscroller_bounds 1 (by decide)).2.2.1 [Event.RightButtonRelease]⟩
